import Mathlib

set_option linter.unusedVariables false

namespace Screenshot

/-- Boolean test that the first character list is a prefix of the second,
used to model the string prefix and suffix tests of the source. -/
def matchFront : List Char → List Char → Bool
  | [], _ => true
  | _ :: _, [] => false
  | p :: ps, c :: cs => p == c && matchFront ps cs

/-- Model of the url prefix test url.startswith of src/main.py line 158. -/
def strStartsWith (s pre : String) : Bool :=
  matchFront pre.data s.data

/-- Model of filename.endswith of src/main.py line 192. -/
def strEndsWith (s suf : String) : Bool :=
  matchFront suf.data.reverse s.data.reverse

/-- Pydantic body model ScreenshotRequest, src/main.py lines 18 to 25, with
its field defaults.  The url field is the only one with no default. -/
structure ScreenshotRequest where
  url : String
  width : Int := 1920
  height : Int := 1080
  full_page : Bool := false
  format : String := "png"
  quality : Int := 80
  timeout : Int := 30000
deriving Repr, DecidableEq

/-- Query parameters of GET /screenshot, src/main.py lines 146 to 153, with the
defaults declared there.  The url parameter is the only one with no default. -/
structure GetParams where
  url : String
  width : Int := 1920
  height : Int := 1080
  full_page : Bool := false
  format : String := "png"
  quality : Int := 80
  timeout : Int := 30000
deriving Repr, DecidableEq

/-- Steps performed inside the try block of capture_screenshot,
src/main.py lines 69 to 98, in program order. -/
inductive CaptureStep where
  | newContext
  | newPage
  | setDefaultTimeout
  | goto
  | sleep
  | screenshot
deriving Repr, DecidableEq

/-- Abstraction of the external rendering engine: it either completes every
step, or raises an exception with the given message at the given step. -/
structure EngineBehavior where
  failAt : Option (CaptureStep × String)
deriving Repr, DecidableEq

/-- Observable resource state threaded through a capture: how many live
browser instances exist and which files have been written to storage. -/
structure EngineState where
  liveBrowsers : Nat
  files : List String
deriving Repr, DecidableEq

/-- Model of p.chromium.launch, src/main.py line 64: one more live browser. -/
def launch_browser (s : EngineState) : EngineState :=
  { s with liveBrowsers := s.liveBrowsers + 1 }

/-- Model of browser.close, src/main.py line 101: one fewer live browser. -/
def close_browser (s : EngineState) : EngineState :=
  { s with liveBrowsers := s.liveBrowsers - 1 }

/-- Run one engine step under the given engine behavior: the step raises
exactly when the behavior designates it as the failing step. -/
def runStep (eng : EngineBehavior) (step : CaptureStep) : Except String Unit :=
  match eng.failAt with
  | none => Except.ok ()
  | some (st, msg) => if st = step then Except.error msg else Except.ok ()

/-- Keyword options passed to page.screenshot, src/main.py lines 87 to 96. -/
structure ScreenshotOptions where
  path : String
  full_page : Bool
  type : String
  quality : Option Int
deriving Repr, DecidableEq

/-- Construction of screenshot_options, src/main.py lines 87 to 96: the jpeg
branch sets type jpeg and a quality, the other branch sets type png. -/
def mk_screenshot_options (filepath : String) (full_page : Bool)
    (format : String) (quality : Int) : ScreenshotOptions :=
  if format = "jpeg" then
    { path := filepath, full_page := full_page, type := "jpeg", quality := some quality }
  else
    { path := filepath, full_page := full_page, type := "png", quality := none }

/-- Extension choice of src/main.py line 59: png for format png, jpg otherwise. -/
def file_extension (format : String) : String :=
  if format = "png" then "png" else "jpg"

/-- Filename generation of src/main.py line 60, with the random uuid hex
abstracted as the argument hex. -/
def gen_filename (hex format : String) : String :=
  "screenshot_" ++ hex ++ "." ++ file_extension format

/-- Body of the try block of capture_screenshot, src/main.py lines 69 to 98:
context creation, page creation, default timeout, navigation, the fixed sleep,
and the screenshot write, each of which may raise; on success the screenshot
step writes the file at opts.path. -/
def capture_body (eng : EngineBehavior) (opts : ScreenshotOptions)
    (s : EngineState) : EngineState × Except String Unit :=
  match runStep eng CaptureStep.newContext with
  | Except.error m => (s, Except.error m)
  | Except.ok _ =>
  match runStep eng CaptureStep.newPage with
  | Except.error m => (s, Except.error m)
  | Except.ok _ =>
  match runStep eng CaptureStep.setDefaultTimeout with
  | Except.error m => (s, Except.error m)
  | Except.ok _ =>
  match runStep eng CaptureStep.goto with
  | Except.error m => (s, Except.error m)
  | Except.ok _ =>
  match runStep eng CaptureStep.sleep with
  | Except.error m => (s, Except.error m)
  | Except.ok _ =>
  match runStep eng CaptureStep.screenshot with
  | Except.error m => (s, Except.error m)
  | Except.ok _ => ({ s with files := s.files ++ [opts.path] }, Except.ok ())

/-- Semantics of a Python try block with a finally clause: the finalizer runs
on the state left by the body, whether the body returned or raised. -/
def tryFinallyE (body : EngineState → EngineState × Except String α)
    (fin : EngineState → EngineState) (s : EngineState) :
    EngineState × Except String α :=
  let r := body s
  (fin r.1, r.2)

/-- Model of capture_screenshot, src/main.py lines 50 to 103: generate the
filename, launch a browser, run the capture body under try with finally
browser.close, and return the filename on success or propagate the raised
message on failure. -/
def capture_screenshot (eng : EngineBehavior) (hex : String) (url : String)
    (width : Int) (height : Int) (full_page : Bool) (format : String)
    (quality : Int) (timeout : Int) (s : EngineState) :
    EngineState × Except String String :=
  let filename := gen_filename hex format
  let opts := mk_screenshot_options filename full_page format quality
  let r := tryFinallyE (capture_body eng opts) close_browser (launch_browser s)
  (r.1, Except.map (fun _ => filename) r.2)

/-- A raised Python exception as seen by an except clause: either a FastAPI
HTTPException carrying status and detail, or any other exception message. -/
inductive PyExn where
  | http (status : Nat) (detail : String)
  | exc (msg : String)
deriving Repr, DecidableEq

/-- Model of str(e) on a raised exception: a Starlette HTTPException prints
as status colon detail, any other exception prints its message. -/
def strOfExn : PyExn → String
  | PyExn.http status detail => Nat.repr status ++ ": " ++ detail
  | PyExn.exc msg => msg

/-- HTTP level outcome of the two screenshot endpoints: a JSON success body
with filename, message and an optional download url, or an error status. -/
inductive HttpResult where
  | ok (filename : String) (message : String) (download_url : Option String)
  | httpError (status : Nat) (detail : String)
deriving Repr, DecidableEq

/-- Full observable outcome of a screenshot endpoint call: final resource
state, whether capture_screenshot was invoked, and the HTTP response. -/
structure HandlerResult where
  state : EngineState
  engineInvoked : Bool
  response : HttpResult
deriving Repr, DecidableEq

/-- Format normalization of the POST handler, src/main.py line 113. -/
def normalize_format_post (format : String) : String :=
  if format = "png" then "png" else "jpeg"

/-- Format normalization of the GET handler, src/main.py line 162. -/
def normalize_format_get (format : String) : String :=
  if format = "png" then "png" else "jpeg"

/-- Lift of a capture result into the try block result of a handler: a raised
capture message becomes a generic exception value. -/
def except_to_py : Except String String → Except PyExn String
  | Except.ok filename => Except.ok filename
  | Except.error m => Except.error (PyExn.exc m)

/-- Try block of take_screenshot_post, src/main.py lines 107 to 140: the four
validation tests in source order, each raising HTTPException 400, then the
call to capture_screenshot.  The middle component records whether the capture
orchestrator was invoked. -/
def take_screenshot_post_body (eng : EngineBehavior) (hex : String)
    (request : ScreenshotRequest) (s : EngineState) :
    EngineState × Bool × Except PyExn String :=
  if request.format = "png" ∨ request.format = "jpeg" ∨ request.format = "jpg" then
    if normalize_format_post request.format = "jpeg" ∧
        (request.quality < 1 ∨ request.quality > 100) then
      (s, false, Except.error (PyExn.http 400 "Quality must be between 1 and 100 for JPEG"))
    else if request.width < 100 ∨ request.width > 3840 then
      (s, false, Except.error (PyExn.http 400 "Width must be between 100 and 3840"))
    else if request.height < 100 ∨ request.height > 2160 then
      (s, false, Except.error (PyExn.http 400 "Height must be between 100 and 2160"))
    else
      ((capture_screenshot eng hex request.url request.width request.height
          request.full_page (normalize_format_post request.format) request.quality
          request.timeout s).1,
        true,
        except_to_py (capture_screenshot eng hex request.url request.width request.height
          request.full_page (normalize_format_post request.format) request.quality
          request.timeout s).2)
  else
    (s, false, Except.error (PyExn.http 400 "Format must be \x27png\x27 or \x27jpeg\x27"))

/-- POST /screenshot handler, src/main.py lines 105 to 143.  The except clause
of the source catches every exception raised in the try block, including the
HTTPException 400 values raised by validation, and re-raises HTTPException 500
wrapping str(e). -/
def take_screenshot_post (eng : EngineBehavior) (hex : String)
    (request : ScreenshotRequest) (s : EngineState) : HandlerResult :=
  match take_screenshot_post_body eng hex request s with
  | (s1, invoked, Except.ok filename) =>
      { state := s1, engineInvoked := invoked,
        response := HttpResult.ok filename "Screenshot captured successfully" none }
  | (s1, invoked, Except.error e) =>
      { state := s1, engineInvoked := invoked,
        response := HttpResult.httpError 500 ("Failed to capture screenshot: " ++ strOfExn e) }

/-- FastAPI parameter parsing layer of GET /screenshot, induced by the Query
declarations of src/main.py lines 147 to 153: width in 100 to 3840, height in
100 to 2160, format matching png or jpeg or jpg, quality in 1 to 100, timeout
in 5000 to 120000; a violated constraint is rejected with a 422 response
before the handler body runs. -/
def parse_get_params (p : GetParams) : Except (Nat × String) GetParams :=
  if p.width < 100 ∨ p.width > 3840 then
    Except.error (422, "width out of range")
  else if p.height < 100 ∨ p.height > 2160 then
    Except.error (422, "height out of range")
  else if ¬ (p.format = "png" ∨ p.format = "jpeg" ∨ p.format = "jpg") then
    Except.error (422, "format does not match pattern")
  else if p.quality < 1 ∨ p.quality > 100 then
    Except.error (422, "quality out of range")
  else if p.timeout < 5000 ∨ p.timeout > 120000 then
    Except.error (422, "timeout out of range")
  else
    Except.ok p

/-- Try block of take_screenshot_get, src/main.py lines 156 to 179: the url
scheme test raising HTTPException 400, then the call to capture_screenshot. -/
def take_screenshot_get_body (eng : EngineBehavior) (hex : String)
    (p : GetParams) (s : EngineState) : EngineState × Bool × Except PyExn String :=
  if ¬ (strStartsWith p.url "http://" = true ∨ strStartsWith p.url "https://" = true) then
    (s, false, Except.error (PyExn.http 400 "URL must start with http:// or https://"))
  else
    ((capture_screenshot eng hex p.url p.width p.height p.full_page
        (normalize_format_get p.format) p.quality p.timeout s).1,
      true,
      except_to_py (capture_screenshot eng hex p.url p.width p.height p.full_page
        (normalize_format_get p.format) p.quality p.timeout s).2)

/-- Handler body of GET /screenshot after parameter parsing, src/main.py
lines 156 to 182, with the same except clause semantics as the POST handler:
every raised exception, including the HTTPException 400 of the url scheme
test, is wrapped into HTTPException 500. -/
def take_screenshot_get_handler (eng : EngineBehavior) (hex : String)
    (p : GetParams) (s : EngineState) : HandlerResult :=
  match take_screenshot_get_body eng hex p s with
  | (s1, invoked, Except.ok filename) =>
      { state := s1, engineInvoked := invoked,
        response := HttpResult.ok filename "Screenshot captured successfully"
          (some ("/download/" ++ filename)) }
  | (s1, invoked, Except.error e) =>
      { state := s1, engineInvoked := invoked,
        response := HttpResult.httpError 500 ("Failed to capture screenshot: " ++ strOfExn e) }

/-- GET /screenshot endpoint, src/main.py lines 145 to 182: the parameter
parsing layer runs first and rejects out of range parameters with 422, and
only a fully parsed parameter set reaches the handler body. -/
def take_screenshot_get (eng : EngineBehavior) (hex : String)
    (p : GetParams) (s : EngineState) : HandlerResult :=
  match parse_get_params p with
  | Except.error ed =>
      { state := s, engineInvoked := false,
        response := HttpResult.httpError ed.1 ed.2 }
  | Except.ok q => take_screenshot_get_handler eng hex q s

/-- One file of the storage directory: name, byte size, creation time. -/
structure StoredFile where
  name : String
  size : Nat
  ctime : Nat
deriving Repr, DecidableEq

/-- Model of filepath.exists on the storage directory, src/main.py
lines 188 and 207. -/
def fileExists (dir : List StoredFile) (filename : String) : Bool :=
  dir.any (fun f => f.name == filename)

/-- Response of GET /download/filename: a file response carrying path, media
type and suggested filename, or an error status. -/
inductive DownloadResponse where
  | file (path : String) (media_type : String) (filename : String)
  | httpError (status : Nat) (detail : String)
deriving Repr, DecidableEq

/-- GET /download/filename handler, src/main.py lines 184 to 201: 404 when the
file is absent, otherwise a file response whose media type is image/png when
the filename ends in .png and image/jpeg otherwise. -/
def download_screenshot (dir : List StoredFile) (filename : String) :
    DownloadResponse :=
  if fileExists dir filename = false then
    DownloadResponse.httpError 404 "Screenshot not found"
  else if strEndsWith filename ".png" = true then
    DownloadResponse.file filename "image/png" filename
  else
    DownloadResponse.file filename "image/jpeg" filename

/-- Response of DELETE /screenshot/filename: a success body or an error. -/
inductive DeleteResponse where
  | ok (message : String)
  | httpError (status : Nat) (detail : String)
deriving Repr, DecidableEq

/-- DELETE /screenshot/filename handler, src/main.py lines 203 to 214: 404
when the file is absent, otherwise os.remove of the file and a success body.
The os.remove call is modelled as always succeeding on the modelled
directory; its except branch corresponds to operating system failures outside
the model. -/
def delete_screenshot (dir : List StoredFile) (filename : String) :
    List StoredFile × DeleteResponse :=
  if fileExists dir filename = false then
    (dir, DeleteResponse.httpError 404 "Screenshot not found")
  else
    (dir.filter (fun f => f.name != filename),
      DeleteResponse.ok ("Screenshot " ++ filename ++ " deleted successfully"))

/-- One entry of the /list response, src/main.py lines 222 to 226. -/
structure ListEntry where
  filename : String
  size : Nat
  created : Nat
deriving Repr, DecidableEq

/-- Body of the /list response, src/main.py lines 228 to 232. -/
structure ListResponse where
  success : Bool
  count : Nat
  screenshots : List ListEntry
deriving Repr, DecidableEq

/-- Entry built for one stored file, src/main.py lines 222 to 226. -/
def toEntry (f : StoredFile) : ListEntry :=
  { filename := f.name, size := f.size, created := f.ctime }

/-- GET /list handler, src/main.py lines 216 to 234: enumerate the files of
the storage directory whose name matches the glob pattern screenshot_ star,
that is whose name starts with the prefix screenshot_, build one entry per
such file, and report the length of that list as count.  Every entry of the
modelled directory is a file, so the is_file test of the source is true. -/
def list_screenshots (dir : List StoredFile) : ListResponse :=
  { success := true,
    count := ((dir.filter (fun f => strStartsWith f.name "screenshot_")).map toEntry).length,
    screenshots := (dir.filter (fun f => strStartsWith f.name "screenshot_")).map toEntry }

/-- Engine behavior with no failing step. -/
def engNone : EngineBehavior := { failAt := none }

/-- Initial resource state: no live browsers, no stored files. -/
def st0 : EngineState := { liveBrowsers := 0, files := [] }

/-- POST body with an invalid format, used as the concrete failing input. -/
def req_bad_format : ScreenshotRequest :=
  { url := "https://example.com", width := 800, height := 600, format := "gif" }

/-- GET parameters with a non http url, used as the concrete failing input. -/
def p_bad_scheme : GetParams := { url := "ftp://example.com" }

/-- GET parameters with quality 150, outside the declared bound. -/
def p_quality_150 : GetParams :=
  { url := "https://example.com", format := "jpeg", quality := 150 }

/-- POST body with a negative timeout and otherwise default fields. -/
def req_neg_timeout : ScreenshotRequest :=
  { url := "https://example.com", timeout := -7 }

/-- POST body requesting the jpg format. -/
def req_jpg : ScreenshotRequest := { url := "https://example.com", format := "jpg" }

/-- GET parameters requesting the jpeg format. -/
def p_jpeg : GetParams := { url := "https://example.com", format := "jpeg" }

/-- A stored screenshot file used by concrete witnesses. -/
def fileA : StoredFile := { name := "screenshot_aa.png", size := 5, ctime := 1 }

/-- A stored file not matching the screenshot naming convention. -/
def fileB : StoredFile := { name := "other.txt", size := 2, ctime := 1 }

/-- A storage directory holding one matching and one non matching file. -/
def dirW : List StoredFile := [fileA, fileB]


/-- The capture body never changes the number of live browsers: each of its
steps either raises or proceeds, and only the screenshot step touches state,
adding a file. -/
theorem capture_body_live (eng : EngineBehavior) (opts : ScreenshotOptions)
    (s : EngineState) : (capture_body eng opts s).1.liveBrowsers = s.liveBrowsers := by
  rcases eng with ⟨failAt⟩
  rcases failAt with _ | ⟨st, msg⟩
  · simp [capture_body, runStep]
  · cases st <;> simp [capture_body, runStep]

/-- When no step of the engine fails, capture_screenshot returns the
generated filename. -/
theorem capture_screenshot_ok (eng : EngineBehavior) (hex url : String)
    (width height : Int) (full_page : Bool) (format : String)
    (quality timeout : Int) (s : EngineState) (heng : eng.failAt = none) :
    (capture_screenshot eng hex url width height full_page format quality timeout s).2 =
      Except.ok (gen_filename hex format) := by
  rcases eng with ⟨failAt⟩
  simp only [EngineBehavior.failAt] at heng
  subst heng
  simp [capture_screenshot, tryFinallyE, capture_body, runStep, Except.map]

/-- On a request passing every validation test of the POST handler, the try
block body invokes the capture and, when the engine succeeds, returns the
generated filename. -/
theorem post_body_valid (eng : EngineBehavior) (hex : String)
    (r : ScreenshotRequest) (s : EngineState) (heng : eng.failAt = none)
    (hf : r.format = "png" ∨ r.format = "jpeg" ∨ r.format = "jpg")
    (hq1 : 1 ≤ r.quality) (hq2 : r.quality ≤ 100)
    (hw1 : 100 ≤ r.width) (hw2 : r.width ≤ 3840)
    (hh1 : 100 ≤ r.height) (hh2 : r.height ≤ 2160) :
    take_screenshot_post_body eng hex r s =
      ((capture_screenshot eng hex r.url r.width r.height r.full_page
          (normalize_format_post r.format) r.quality r.timeout s).1,
        true, Except.ok (gen_filename hex (normalize_format_post r.format))) := by
  have hcap := capture_screenshot_ok eng hex r.url r.width r.height r.full_page
    (normalize_format_post r.format) r.quality r.timeout s heng
  unfold take_screenshot_post_body
  rw [if_pos hf, if_neg (by rintro ⟨-, hbad⟩; omega),
    if_neg (by omega : ¬ (r.width < 100 ∨ r.width > 3840)),
    if_neg (by omega : ¬ (r.height < 100 ∨ r.height > 2160))]
  rw [hcap]
  rfl

/-- On a request passing every validation test of the POST handler, the try
block body invokes the capture, whatever the engine then does. -/
theorem post_body_invoked (eng : EngineBehavior) (hex : String)
    (r : ScreenshotRequest) (s : EngineState)
    (hf : r.format = "png" ∨ r.format = "jpeg" ∨ r.format = "jpg")
    (hq1 : 1 ≤ r.quality) (hq2 : r.quality ≤ 100)
    (hw1 : 100 ≤ r.width) (hw2 : r.width ≤ 3840)
    (hh1 : 100 ≤ r.height) (hh2 : r.height ≤ 2160) :
    (take_screenshot_post_body eng hex r s).2.1 = true := by
  unfold take_screenshot_post_body
  rw [if_pos hf, if_neg (by rintro ⟨-, hbad⟩; omega),
    if_neg (by omega : ¬ (r.width < 100 ∨ r.width > 3840)),
    if_neg (by omega : ¬ (r.height < 100 ∨ r.height > 2160))]

/-- The engine invocation flag of the POST handler is the one recorded by its
try block body. -/
theorem post_invoked_eq (eng : EngineBehavior) (hex : String)
    (r : ScreenshotRequest) (s : EngineState) :
    (take_screenshot_post eng hex r s).engineInvoked =
      (take_screenshot_post_body eng hex r s).2.1 := by
  unfold take_screenshot_post
  rcases hb : take_screenshot_post_body eng hex r s with ⟨s1, invoked, r2⟩
  cases r2 <;> rfl

/-- A parameter set violating one of the numeric Query bounds is rejected by
the parameter parsing layer with a 422 error. -/
theorem parse_rejects (p : GetParams)
    (hbad : p.width < 100 ∨ p.width > 3840 ∨ p.height < 100 ∨ p.height > 2160 ∨
      p.quality < 1 ∨ p.quality > 100 ∨ p.timeout < 5000 ∨ p.timeout > 120000) :
    ∃ d, parse_get_params p = Except.error (422, d) := by
  unfold parse_get_params
  split
  · exact ⟨_, rfl⟩
  split
  · exact ⟨_, rfl⟩
  split
  · exact ⟨_, rfl⟩
  split
  · exact ⟨_, rfl⟩
  split
  · exact ⟨_, rfl⟩
  · rename_i h1 h2 h3 h4 h5
    exfalso
    omega

/-- A file removed by the delete handler no longer exists in the directory it
returns. -/
theorem removed_not_exists (dir : List StoredFile) (fn : String) :
    fileExists (dir.filter (fun f => f.name != fn)) fn = false := by
  simp only [fileExists, List.any_eq_false, List.mem_filter, bne_iff_ne, ne_eq,
    beq_iff_eq]
  rintro f ⟨hmem, hne⟩
  exact hne


/-- On parameters whose url scheme test passes and whose engine succeeds, the
GET handler body returns the success body with the generated filename and its
download url. -/
theorem get_handler_valid (eng : EngineBehavior) (hex : String) (p : GetParams)
    (s : EngineState) (heng : eng.failAt = none)
    (hsch : strStartsWith p.url "http://" = true ∨ strStartsWith p.url "https://" = true) :
    (take_screenshot_get_handler eng hex p s).response =
      HttpResult.ok (gen_filename hex (normalize_format_get p.format))
        "Screenshot captured successfully"
        (some ("/download/" ++ gen_filename hex (normalize_format_get p.format))) := by
  have hcap := capture_screenshot_ok eng hex p.url p.width p.height p.full_page
    (normalize_format_get p.format) p.quality p.timeout s heng
  unfold take_screenshot_get_handler take_screenshot_get_body
  rw [if_neg (fun hc => hc hsch), hcap]
  rfl

/-- C1: the claim states that a POST body failing validation is answered with
status 400 and that the engine is never invoked.  On the concrete failing
input req_bad_format the engine is indeed never invoked and the state is
untouched, but the handler answers 500, not 400: the except clause of the
source catches its own HTTPException 400 and re-raises it wrapped in
HTTPException 500. -/
theorem claim1_post_validation_wrapped_500 :
    (take_screenshot_post engNone "abcd" req_bad_format st0).engineInvoked = false ∧
    (take_screenshot_post engNone "abcd" req_bad_format st0).state = st0 ∧
    (take_screenshot_post engNone "abcd" req_bad_format st0).response =
      HttpResult.httpError 500
        "Failed to capture screenshot: 400: Format must be \x27png\x27 or \x27jpeg\x27" := by
  decide

/-- C2: the claim states that a GET request whose url lacks an http or https
prefix is answered with status 400 with the engine never invoked.  On the
concrete input p_bad_scheme the engine is never invoked and no file is
created, but the handler answers 500, not 400: the except clause of the
source catches its own HTTPException 400 and re-raises it wrapped in
HTTPException 500. -/
theorem claim2_get_scheme_wrapped_500 :
    (take_screenshot_get engNone "abcd" p_bad_scheme st0).engineInvoked = false ∧
    (take_screenshot_get engNone "abcd" p_bad_scheme st0).state.files = st0.files ∧
    (take_screenshot_get engNone "abcd" p_bad_scheme st0).response =
      HttpResult.httpError 500
        "Failed to capture screenshot: 400: URL must start with http:// or https://" := by
  decide

/-- C3 counterexample: the claim states that the normalization maps every
input other than jpg and jpeg to png, but on the input gif both entry path
normalizations produce jpeg, not png. -/
theorem claim3_counterexample :
    normalize_format_post "gif" ≠ "png" ∧
    normalize_format_post "gif" = "jpeg" ∧
    normalize_format_get "gif" = "jpeg" := by
  decide

/-- C3 (amended): the normalization applied on both entry paths is the same
function; it maps jpg and jpeg to the single internal value jpeg, maps png to
png, and maps every input other than png (not only jpg and jpeg) to jpeg. -/
theorem claim3_amended_normalization (f : String) :
    normalize_format_post f = normalize_format_get f ∧
    normalize_format_post "jpg" = "jpeg" ∧
    normalize_format_post "jpeg" = "jpeg" ∧
    normalize_format_post "png" = "png" ∧
    (f ≠ "png" → normalize_format_post f = "jpeg") := by
  refine ⟨rfl, by decide, by decide, by decide, fun h => ?_⟩
  unfold normalize_format_post
  rw [if_neg h]

/-- C3 witness: the amended theorem evaluated at the concrete input gif. -/
theorem claim3_witness : normalize_format_post "gif" = "jpeg" :=
  (claim3_amended_normalization "gif").2.2.2.2 (by decide)

/-- C4: on any valid request of either entry path with a succeeding engine,
the response carries the generated filename of the form screenshot_ hex dot
extension, where the extension is png exactly when the requested format is
png and jpg when the requested format is jpeg or jpg. -/
theorem claim4_filename_extension (eng : EngineBehavior) (hex : String)
    (r : ScreenshotRequest) (p : GetParams) (s : EngineState)
    (heng : eng.failAt = none)
    (hf : r.format = "png" ∨ r.format = "jpeg" ∨ r.format = "jpg")
    (hq1 : 1 ≤ r.quality) (hq2 : r.quality ≤ 100)
    (hw1 : 100 ≤ r.width) (hw2 : r.width ≤ 3840)
    (hh1 : 100 ≤ r.height) (hh2 : r.height ≤ 2160)
    (hp : parse_get_params p = Except.ok p)
    (hsch : strStartsWith p.url "http://" = true ∨ strStartsWith p.url "https://" = true) :
    (take_screenshot_post eng hex r s).response =
      HttpResult.ok (gen_filename hex (normalize_format_post r.format))
        "Screenshot captured successfully" none ∧
    (take_screenshot_get eng hex p s).response =
      HttpResult.ok (gen_filename hex (normalize_format_get p.format))
        "Screenshot captured successfully"
        (some ("/download/" ++ gen_filename hex (normalize_format_get p.format))) ∧
    gen_filename hex (normalize_format_post r.format) =
      "screenshot_" ++ hex ++ "." ++ file_extension (normalize_format_post r.format) ∧
    (r.format = "png" → file_extension (normalize_format_post r.format) = "png") ∧
    ((r.format = "jpeg" ∨ r.format = "jpg") →
      file_extension (normalize_format_post r.format) = "jpg") ∧
    (p.format = "png" → file_extension (normalize_format_get p.format) = "png") ∧
    ((p.format = "jpeg" ∨ p.format = "jpg") →
      file_extension (normalize_format_get p.format) = "jpg") := by
  refine ⟨?_, ?_, rfl, ?_, ?_, ?_, ?_⟩
  · unfold take_screenshot_post
    rw [post_body_valid eng hex r s heng hf hq1 hq2 hw1 hw2 hh1 hh2]
  · unfold take_screenshot_get
    rw [hp]
    exact get_handler_valid eng hex p s heng hsch
  · intro h; rw [h]; decide
  · rintro (h | h) <;> rw [h] <;> decide
  · intro h; rw [h]; decide
  · rintro (h | h) <;> rw [h] <;> decide

/-- C4 witness: concrete jpg POST body and jpeg GET parameters produce
filenames with the jpg extension. -/
theorem claim4_witness :
    (take_screenshot_post engNone "cafe" req_jpg st0).response =
      HttpResult.ok "screenshot_cafe.jpg" "Screenshot captured successfully" none ∧
    (take_screenshot_get engNone "cafe" p_jpeg st0).response =
      HttpResult.ok "screenshot_cafe.jpg" "Screenshot captured successfully"
        (some "/download/screenshot_cafe.jpg") := by
  have h := claim4_filename_extension engNone "cafe" req_jpg p_jpeg st0 rfl
    (Or.inr (Or.inr rfl)) (by decide) (by decide) (by decide) (by decide)
    (by decide) (by decide) rfl (Or.inr (by decide))
  exact ⟨h.1, h.2.1⟩


/-- C5: whatever the engine does, a capture call leaves the number of live
browser instances exactly as it found it: the browser launched by the call is
closed by the finally clause on success and on failure of any step from
context creation through the screenshot write. -/
theorem claim5_engine_released (eng : EngineBehavior) (hex url : String)
    (width height : Int) (full_page : Bool) (format : String)
    (quality timeout : Int) (s : EngineState) :
    (capture_screenshot eng hex url width height full_page format
      quality timeout s).1.liveBrowsers = s.liveBrowsers := by
  have h := capture_body_live eng
    (mk_screenshot_options (gen_filename hex format) full_page format quality)
    (launch_browser s)
  simp only [capture_screenshot, tryFinallyE, close_browser]
  rw [h]
  simp [launch_browser]

/-- C6: deleting an absent filename answers 404 and leaves the directory
unchanged; deleting a present filename answers the success body and removes
the file, so that deleting the same filename a second time answers 404. -/
theorem claim6_delete_semantics (dir : List StoredFile) (filename : String) :
    (fileExists dir filename = false →
      delete_screenshot dir filename =
        (dir, DeleteResponse.httpError 404 "Screenshot not found")) ∧
    (fileExists dir filename = true →
      (delete_screenshot dir filename).2 =
        DeleteResponse.ok ("Screenshot " ++ filename ++ " deleted successfully") ∧
      fileExists (delete_screenshot dir filename).1 filename = false ∧
      (delete_screenshot (delete_screenshot dir filename).1 filename).2 =
        DeleteResponse.httpError 404 "Screenshot not found") := by
  constructor
  · intro h
    unfold delete_screenshot
    rw [if_pos h]
  · intro h
    have hne : ¬ (fileExists dir filename = false) := by simp [h]
    have hdel : delete_screenshot dir filename =
        (dir.filter (fun f => f.name != filename),
          DeleteResponse.ok ("Screenshot " ++ filename ++ " deleted successfully")) := by
      unfold delete_screenshot
      rw [if_neg hne]
    have hrm := removed_not_exists dir filename
    refine ⟨by rw [hdel], by rw [hdel]; exact hrm, ?_⟩
    rw [hdel]
    unfold delete_screenshot
    rw [if_pos hrm]

/-- C6 witness: the theorem evaluated on the concrete directory dirW and the
stored filename screenshot_aa.png. -/
theorem claim6_witness :
    (delete_screenshot dirW "screenshot_aa.png").2 =
      DeleteResponse.ok "Screenshot screenshot_aa.png deleted successfully" ∧
    fileExists (delete_screenshot dirW "screenshot_aa.png").1 "screenshot_aa.png" = false ∧
    (delete_screenshot (delete_screenshot dirW "screenshot_aa.png").1 "screenshot_aa.png").2 =
      DeleteResponse.httpError 404 "Screenshot not found" :=
  (claim6_delete_semantics dirW "screenshot_aa.png").2 (by decide)

/-- C7: downloading an absent filename answers 404; a present filename is
served with media type image/png when it ends in .png and image/jpeg for
every other filename. -/
theorem claim7_download_semantics (dir : List StoredFile) (filename : String) :
    (fileExists dir filename = false →
      download_screenshot dir filename =
        DownloadResponse.httpError 404 "Screenshot not found") ∧
    (fileExists dir filename = true →
      (strEndsWith filename ".png" = true →
        download_screenshot dir filename =
          DownloadResponse.file filename "image/png" filename) ∧
      (strEndsWith filename ".png" = false →
        download_screenshot dir filename =
          DownloadResponse.file filename "image/jpeg" filename)) := by
  constructor
  · intro h
    unfold download_screenshot
    rw [if_pos h]
  · intro h
    have hne : ¬ (fileExists dir filename = false) := by simp [h]
    constructor
    · intro hp
      unfold download_screenshot
      rw [if_neg hne, if_pos hp]
    · intro hp
      unfold download_screenshot
      rw [if_neg hne, if_neg (by simp [hp])]

/-- C7 witness: the theorem evaluated on the concrete directory dirW and the
stored png filename. -/
theorem claim7_witness :
    download_screenshot dirW "screenshot_aa.png" =
      DownloadResponse.file "screenshot_aa.png" "image/png" "screenshot_aa.png" :=
  ((claim7_download_semantics dirW "screenshot_aa.png").2 (by decide)).1 (by decide)

/-- C8: for every directory state, the /list response reports success, its
count equals the length of its entry list and equals the number of files
whose name starts with screenshot_, every matching file contributes its
entry, and every reported entry names a matching file. -/
theorem claim8_list_semantics (dir : List StoredFile) :
    (list_screenshots dir).success = true ∧
    (list_screenshots dir).count = (list_screenshots dir).screenshots.length ∧
    (list_screenshots dir).count =
      dir.countP (fun f => strStartsWith f.name "screenshot_") ∧
    (∀ f ∈ dir, strStartsWith f.name "screenshot_" = true →
      toEntry f ∈ (list_screenshots dir).screenshots) ∧
    (∀ e ∈ (list_screenshots dir).screenshots,
      strStartsWith e.filename "screenshot_" = true) := by
  refine ⟨rfl, rfl, ?_, ?_, ?_⟩
  · simp [list_screenshots, List.countP_eq_length_filter]
  · intro f hmem hpre
    simp only [list_screenshots, List.mem_map]
    exact ⟨f, List.mem_filter.mpr ⟨hmem, hpre⟩, rfl⟩
  · intro e he
    simp only [list_screenshots, List.mem_map] at he
    obtain ⟨f, hf, rfl⟩ := he
    exact (List.mem_filter.mp hf).2

/-- C8 witness: the theorem evaluated on the concrete directory dirW, whose
matching file is listed and whose count is the number of matching files. -/
theorem claim8_witness :
    toEntry fileA ∈ (list_screenshots dirW).screenshots ∧
    (list_screenshots dirW).count =
      dirW.countP (fun f => strStartsWith f.name "screenshot_") :=
  ⟨(claim8_list_semantics dirW).2.2.2.1 fileA (by decide) (by decide),
    (claim8_list_semantics dirW).2.2.1⟩

/-- C9: on the GET endpoint a width, height, quality or timeout outside the
declared Query bounds is rejected by the parameter parsing layer with a 422
error, before the engine is invoked and without touching any state, while the
POST endpoint invokes the engine for every integer timeout once the body
validations on format, quality, width and height pass. -/
theorem claim9_bound_layers :
    (∀ (p : GetParams) (eng : EngineBehavior) (hex : String) (s : EngineState),
      (p.width < 100 ∨ p.width > 3840 ∨ p.height < 100 ∨ p.height > 2160 ∨
        p.quality < 1 ∨ p.quality > 100 ∨ p.timeout < 5000 ∨ p.timeout > 120000) →
      (take_screenshot_get eng hex p s).engineInvoked = false ∧
      (take_screenshot_get eng hex p s).state = s ∧
      ∃ d, (take_screenshot_get eng hex p s).response = HttpResult.httpError 422 d) ∧
    (∀ (r : ScreenshotRequest) (eng : EngineBehavior) (hex : String) (s : EngineState),
      (r.format = "png" ∨ r.format = "jpeg" ∨ r.format = "jpg") →
      1 ≤ r.quality → r.quality ≤ 100 →
      100 ≤ r.width → r.width ≤ 3840 → 100 ≤ r.height → r.height ≤ 2160 →
      (take_screenshot_post eng hex r s).engineInvoked = true) := by
  constructor
  · intro p eng hex s hbad
    obtain ⟨d, hd⟩ := parse_rejects p hbad
    unfold take_screenshot_get
    rw [hd]
    exact ⟨rfl, rfl, d, rfl⟩
  · intro r eng hex s hf hq1 hq2 hw1 hw2 hh1 hh2
    rw [post_invoked_eq]
    exact post_body_invoked eng hex r s hf hq1 hq2 hw1 hw2 hh1 hh2

/-- C9 witness: quality 150 is rejected on the GET endpoint before any
capture, and a negative timeout does not stop the POST endpoint from
invoking the engine. -/
theorem claim9_witness :
    (take_screenshot_get engNone "ab" p_quality_150 st0).engineInvoked = false ∧
    (take_screenshot_post engNone "ab" req_neg_timeout st0).engineInvoked = true := by
  constructor
  · exact (claim9_bound_layers.1 p_quality_150 engNone "ab" st0 (by decide)).1
  · exact claim9_bound_layers.2 req_neg_timeout engNone "ab" st0 (Or.inl rfl)
      (by decide) (by decide) (by decide) (by decide) (by decide) (by decide)

/-- C10: a body or query parameter set supplying only the url takes the same
defaults on both entry points: width 1920, height 1080, full_page false,
format png, quality 80, timeout 30000. -/
theorem claim10_defaults (u : String) :
    ({ url := u } : ScreenshotRequest) =
      { url := u, width := 1920, height := 1080, full_page := false,
        format := "png", quality := 80, timeout := 30000 } ∧
    ({ url := u } : GetParams) =
      { url := u, width := 1920, height := 1080, full_page := false,
        format := "png", quality := 80, timeout := 30000 } :=
  ⟨rfl, rfl⟩

end Screenshot
